import Mathlib

/-!
Verification model of `m_save_output.py` from securecrt-tools.

The script drives external collaborators (a SecureCRT session object, a
settings store, interactive prompts).  We embed it as a trace semantics:
every call the script makes to a collaborator is recorded as an `Event`,
and every fallible session-library call consults an outcome oracle that
says whether that call succeeds, raises `sessions.ConnectError`, or raises
`sessions.InteractionError` (the two exception classes the script catches).

Conventions of the embedding:
* Fallible calls record their event whether they succeed or fail (the call
  was attempted), with one exception: `writeOutputToFile` is recorded only
  when the call succeeds, since that event stands for "the output file was
  written".
* `session.disconnect()` inside an `except` handler (lines 115 and 128) and
  the final disconnect (line 145) are outside any `try`; an exception there
  would escape `script_main`, so the model records them as infallible calls.
* Python falsiness of a settings value (`if not jumpbox:`) is modelled as
  the value being the empty string.
-/

/-- One row of the CSV device list (src line 96-100). -/
structure Device where
  hostname : String
  protocol : String
  username : String
  password : String
  enable : String
deriving DecidableEq, Repr

/-- The jump-box profile resolved by the jump-box section (src lines 67-84). -/
structure JumpBox where
  host : String
  user : String
  pass : String
  promptEnd : String
deriving DecidableEq, Repr

/-- Observable calls the script makes to its collaborators. -/
inductive Event where
  | importList
  | prompt (text : String)
  | settingsUpdate (sect key value : String)
  | connect (host user pass protocol : String)
  | connectSsh (host user pass promptEnd : String)
  | sshViaJump (host user pass : String)
  | telnetViaJump (host user pass : String)
  | startCiscoSession (enablePass : String)
  | createOutputFilename (base : String)
  | writeOutputToFile (cmd : String)
  | endCiscoSession
  | disconnect
  | disconnectViaJump
  | logFailure (line : String)
deriving DecidableEq, Repr

/-- Result of one external session-library call, chosen by the environment. -/
inductive Outcome where
  | ok
  | connectErr (msg : String)
  | interactErr (msg : String)
deriving DecidableEq, Repr

/-- The two exception classes `script_main` catches (`sessions.ConnectError`,
`sessions.InteractionError`). -/
inductive Exc where
  | connectError (msg : String)
  | interactionError (msg : String)
deriving DecidableEq, Repr

/-- Turn an oracle outcome into the exception it raises, if any. -/
def outcomeToExc : Outcome → Option Exc
  | Outcome.ok => none
  | Outcome.connectErr m => some (Exc.connectError m)
  | Outcome.interactErr m => some (Exc.interactionError m)

/-- The message carried by an exception (`e.message` in the source). -/
def excMsg : Exc → String
  | Exc.connectError m => m
  | Exc.interactionError m => m

/-- ASCII lower-casing of one character, modelling Python's `str.lower` on
the ASCII protocol strings of the CSV. -/
def lowerChar (c : Char) : Char :=
  if c.toNat ≥ 65 ∧ c.toNat ≤ 90 then Char.ofNat (c.toNat + 32) else c

/-- Models Python's `str.lower()` (src lines 104 and 117). -/
def pyLower (s : String) : String :=
  String.mk (s.data.map lowerChar)

/-- Is this character whitespace for the purpose of `str.strip()`? -/
def isWS (c : Char) : Bool :=
  c == ' ' || c == '\t' || c == '\n' || c == '\r' || c == '\x0b' || c == '\x0c'

/-- Models Python's `str.strip()` (src lines 114, 127, 138, 141): drop
leading and trailing whitespace. -/
def pyStrip (s : String) : String :=
  String.mk (((s.data.dropWhile isWS).reverse.dropWhile isWS).reverse)

/-- Does `pat` occur as a contiguous substring of `s`?  Models Python's
`pat in s` (src line 104). -/
def listContainsAux (pat : List Char) : List Char → Bool
  | [] => pat.isEmpty
  | c :: cs => pat.isPrefixOf (c :: cs) || listContainsAux pat cs

/-- Substring test, modelling Python's `needle in haystack` (src line 104). -/
def strContains (s pat : String) : Bool :=
  listContainsAux pat.data s.data

/-- Embeds `per_device_work` (src lines 150-168): start a Cisco session,
derive the output filename from the command text, write the command output
to that file, end the Cisco session.  `o` is the outcome oracle for the
current loop iteration and `c` the index of the next fallible call.
Returns the emitted events, the next call index, and the exception raised,
if any. -/
def per_device_work (o : Nat → Outcome) (c : Nat) (enablePass sendCmd : String) :
    List Event × Nat × Option Exc :=
  match outcomeToExc (o c) with
  | some e => ([Event.startCiscoSession enablePass], c + 1, some e)
  | none =>
    match outcomeToExc (o (c + 1)) with
    | some e =>
      ([Event.startCiscoSession enablePass, Event.createOutputFilename sendCmd],
       c + 2, some e)
    | none =>
      match outcomeToExc (o (c + 2)) with
      | some e =>
        ([Event.startCiscoSession enablePass, Event.createOutputFilename sendCmd,
          Event.writeOutputToFile sendCmd, Event.endCiscoSession], c + 3, some e)
      | none =>
        ([Event.startCiscoSession enablePass, Event.createOutputFilename sendCmd,
          Event.writeOutputToFile sendCmd, Event.endCiscoSession], c + 3, none)

/-- The body of the direct-path `try` block (src lines 133-135): connect,
run `per_device_work`, disconnect. -/
def directBody (o : Nat → Outcome) (d : Device) (cmd : String) :
    List Event × Option Exc :=
  match outcomeToExc (o 0) with
  | some e => ([Event.connect d.hostname d.username d.password d.protocol], some e)
  | none =>
    match per_device_work o 1 d.enable cmd with
    | (evW, _, some e) =>
      (Event.connect d.hostname d.username d.password d.protocol :: evW, some e)
    | (evW, c2, none) =>
      match outcomeToExc (o c2) with
      | some e =>
        (Event.connect d.hostname d.username d.password d.protocol ::
          (evW ++ [Event.disconnect]), some e)
      | none =>
        (Event.connect d.hostname d.username d.password d.protocol ::
          (evW ++ [Event.disconnect]), none)

/-- The failure-log line the direct path writes (src lines 138 and 141):
`ConnectError` and `InteractionError` use different formats. -/
def directLogLine (h : String) : Exc → String
  | Exc.connectError m => "Connect to " ++ h ++ " failed: " ++ pyStrip m ++ "\n"
  | Exc.interactionError m => "Failure on " ++ h ++ ": " ++ pyStrip m ++ "\n"

/-- One direct-path loop iteration (src lines 130-141): run the `try` body;
on an exception append one failure-log line (and nothing else). -/
def processDirect (o : Nat → Outcome) (d : Device) (cmd : String) : List Event :=
  match directBody o d cmd with
  | (evs, none) => evs
  | (evs, some e) => evs ++ [Event.logFailure (directLogLine d.hostname e)]

/-- The failure-log line the jump path writes (src lines 114 and 127): the
same format for both exception classes. -/
def jumpLogLine (h : String) (e : Exc) : String :=
  "Connect to " ++ h ++ " failed: " ++ pyStrip (excMsg e) ++ "\n"

/-- Tail of the jump-path `try` body once connected to the jump box
(src lines 109-111 and 122-124): tunnel to the device, run
`per_device_work`, disconnect the tunnel only. -/
def afterJump (o : Nat → Outcome) (c : Nat) (d : Device) (cmd : String)
    (isSsh : Bool) : List Event × Option Exc :=
  let tEv := if isSsh then Event.sshViaJump d.hostname d.username d.password
             else Event.telnetViaJump d.hostname d.username d.password
  match outcomeToExc (o c) with
  | some e => ([tEv], some e)
  | none =>
    match per_device_work o (c + 1) d.enable cmd with
    | (evW, _, some e) => (tEv :: evW, some e)
    | (evW, c2, none) =>
      match outcomeToExc (o c2) with
      | some e => (tEv :: (evW ++ [Event.disconnectViaJump]), some e)
      | none => (tEv :: (evW ++ [Event.disconnectViaJump]), none)

/-- The jump-path `try` body (src lines 105-111 / 118-124): connect to the
jump box unless the `jump_connected` flag is already set, then tunnel and
work.  Returns the events, the value of `jump_connected` at the end of the
body, and the exception raised, if any. -/
def jumpTryBody (o : Nat → Outcome) (jc : Bool) (jb : JumpBox) (d : Device)
    (cmd : String) (isSsh : Bool) : List Event × Bool × Option Exc :=
  if jc then
    match afterJump o 0 d cmd isSsh with
    | (evs, exc) => (evs, true, exc)
  else
    match outcomeToExc (o 0) with
    | some e => ([Event.connectSsh jb.host jb.user jb.pass jb.promptEnd], false, some e)
    | none =>
      match afterJump o 1 d cmd isSsh with
      | (evs, exc) => (Event.connectSsh jb.host jb.user jb.pass jb.promptEnd :: evs,
                       true, exc)

/-- One jump-path loop iteration (src lines 104-129): run the `try` body;
on an exception append one failure-log line, disconnect the whole session
(which tears down the jump-box connection as well), and clear the
`jump_connected` flag. -/
def jumpDevice (o : Nat → Outcome) (jc : Bool) (jb : JumpBox) (d : Device)
    (cmd : String) (isSsh : Bool) : List Event × Bool :=
  match jumpTryBody o jc jb d cmd isSsh with
  | (evs, jc2, none) => (evs, jc2)
  | (evs, _, some e) =>
    (evs ++ [Event.logFailure (jumpLogLine d.hostname e), Event.disconnect], false)

/-- One loop iteration for one device (src lines 95-141): dispatch on
`use_jumpbox` and, in the jump path, on the device's protocol string
(`"ssh" in protocol.lower()`, then `protocol.lower() == "telnet"`; any
other protocol does nothing). -/
def processDevice (o : Nat → Outcome) (useJump jc : Bool) (jb : JumpBox)
    (d : Device) (cmd : String) : List Event × Bool :=
  if useJump then
    if strContains (pyLower d.protocol) "ssh" then jumpDevice o jc jb d cmd true
    else if pyLower d.protocol = "telnet" then jumpDevice o jc jb d cmd false
    else ([], jc)
  else
    (processDirect o d cmd, jc)

/-- The device connect loop (src lines 95-141): devices in list order, one
at a time, threading the `jump_connected` flag.  `oracle i` is the outcome
oracle for the iteration of the device at position `i`. -/
def runLoop (oracle : Nat → Nat → Outcome) (useJump : Bool) (jb : JumpBox)
    (cmd : String) : List Device → Nat → Bool → List Event × Bool
  | [], _, jc => ([], jc)
  | d :: ds, i, jc =>
    match processDevice (oracle i) useJump jc jb d cmd with
    | (evs, jc2) =>
      match runLoop oracle useJump jb cmd ds (i + 1) jc2 with
      | (rest, jcF) => (evs ++ rest, jcF)

/-- The per-device event blocks of the loop, in device order; the trace of
`runLoop` is their concatenation. -/
def loopSegs (oracle : Nat → Nat → Outcome) (useJump : Bool) (jb : JumpBox)
    (cmd : String) : List Device → Nat → Bool → List (List Event)
  | [], _, _ => []
  | d :: ds, i, jc =>
    match processDevice (oracle i) useJump jc jb d cmd with
    | (evs, jc2) => evs :: loopSegs oracle useJump jb cmd ds (i + 1) jc2

/-- Everything `script_main` consumes from its environment: the initial
connection state of the tab, the imported device list, the operator's
answers to the interactive prompts, the stored settings (empty string =
missing), and the outcome oracle for the session-library calls. -/
structure Input where
  connected : Bool
  deviceList : List Device
  sendCmd : String
  useJumpbox : Bool
  storedHost : String
  storedUser : String
  storedEnding : String
  ansHost : String
  ansUser : String
  ansPass : String
  ansEnding : String
  oracle : Nat → Nat → Outcome

/-- The jump-box section (src lines 65-84): each of host, username and
prompt-ending is prompted for and written back to the settings store only
when its stored value is missing; the password is always prompted fresh
and never written back. -/
def jumpSection (inp : Input) : List Event × JumpBox :=
  if inp.useJumpbox then
    let hostPair :=
      if inp.storedHost = "" then
        ([Event.prompt "Enter the HOSTNAME or IP for the jumpbox",
          Event.settingsUpdate "Global" "jumpbox_host" inp.ansHost], inp.ansHost)
      else (([] : List Event), inp.storedHost)
    let userPair :=
      if inp.storedUser = "" then
        ([Event.prompt ("JUMPBOX: Enter the USERNAME for " ++ hostPair.2),
          Event.settingsUpdate "Global" "jumpbox_user" inp.ansUser], inp.ansUser)
      else (([] : List Event), inp.storedUser)
    let passEvs := [Event.prompt ("JUMPBOX: Enter the PASSWORD for " ++ userPair.2)]
    let endPair :=
      if inp.storedEnding = "" then
        ([Event.prompt "Enter the last character of the jumpbox CLI prompt",
          Event.settingsUpdate "Global" "jumpbox_prompt_end" inp.ansEnding],
         inp.ansEnding)
      else (([] : List Event), inp.storedEnding)
    (hostPair.1 ++ userPair.1 ++ passEvs ++ endPair.1,
     ⟨hostPair.2, userPair.2, inp.ansPass, endPair.2⟩)
  else ([], ⟨inp.storedHost, inp.storedUser, inp.ansPass, inp.storedEnding⟩)

/-- Result of a run of `script_main`: the `ScriptError` message if one was
raised, and the trace of collaborator calls. -/
structure RunResult where
  err : Option String
  events : List Event
deriving Repr

/-- Embeds `script_main` (src lines 30-145): abort with a `ScriptError` if
the tab is already connected; import the device list and return if it is
empty; prompt for the command and return if it is empty; resolve the
jump-box profile; run the device loop starting with `jump_connected =
False`; finally disconnect if still connected to the jump box. -/
def script_main (inp : Input) : RunResult :=
  if inp.connected then
    { err := some "This script must be launched in a not-connected tab.",
      events := [] }
  else if inp.deviceList = [] then
    { err := none, events := [Event.importList] }
  else if inp.sendCmd = "" then
    { err := none,
      events := [Event.importList,
                 Event.prompt "Enter the command to capture on each device."] }
  else
    match jumpSection inp with
    | (evJump, jb) =>
      match runLoop inp.oracle inp.useJumpbox jb inp.sendCmd inp.deviceList 0 false with
      | (evLoop, jcF) =>
        { err := none,
          events := [Event.importList,
                     Event.prompt "Enter the command to capture on each device."] ++
                    evJump ++ evLoop ++ (if jcF then [Event.disconnect] else []) }

/-- Is this event an append of one line to the shared failure log? -/
def isLog : Event → Bool
  | Event.logFailure _ => true
  | _ => false

/-- Is this event the writing of a per-device output file? -/
def isWrite : Event → Bool
  | Event.writeOutputToFile _ => true
  | _ => false

/-- Is this event a connection or tunnel attempt of any kind? -/
def isConnAttempt : Event → Bool
  | Event.connect _ _ _ _ => true
  | Event.connectSsh _ _ _ _ => true
  | Event.sshViaJump _ _ _ => true
  | Event.telnetViaJump _ _ _ => true
  | _ => false

/-- Is this event a connection attempt to the jump box? -/
def isJumpConnect : Event → Bool
  | Event.connectSsh _ _ _ _ => true
  | _ => false

/-- Is this event a write to the settings store? -/
def isSettingsWrite : Event → Bool
  | Event.settingsUpdate _ _ _ => true
  | _ => false

/-- The device a connection or tunnel event is directed at, if it is one. -/
def targetHost : Event → Option String
  | Event.connect h _ _ _ => some h
  | Event.sshViaJump h _ _ => some h
  | Event.telnetViaJump h _ _ => some h
  | _ => none

/-- Session connectivity after a trace of events, starting from `b`:
`connect` and `connectSsh` open the main connection, `disconnect` closes
it; tunnel events ride on the existing connection. -/
def connAfter : Bool → List Event → Bool
  | b, [] => b
  | _, Event.connect _ _ _ _ :: rest => connAfter true rest
  | _, Event.connectSsh _ _ _ _ :: rest => connAfter true rest
  | _, Event.disconnect :: rest => connAfter false rest
  | b, _ :: rest => connAfter b rest

example : strContains (pyLower "SSH2") "ssh" = true := by decide

example : strContains (pyLower "serial") "ssh" = false := by decide

example : pyStrip "  boom  " = "boom" := by decide

/-! ### Helper definitions and lemmas about the per-device shapes -/

/-- The events of a fully successful `per_device_work` run. -/
def workEvsFull (en cmd : String) : List Event :=
  [Event.startCiscoSession en, Event.createOutputFilename cmd,
   Event.writeOutputToFile cmd, Event.endCiscoSession]

/-- The `session.connect` event of the direct path for a device. -/
def connectEv (d : Device) : Event :=
  Event.connect d.hostname d.username d.password d.protocol

/-- The tunnel event of the jump path for a device. -/
def tunnelEv (b : Bool) (d : Device) : Event :=
  if b then Event.sshViaJump d.hostname d.username d.password
  else Event.telnetViaJump d.hostname d.username d.password

/-- Events that `per_device_work` can emit. -/
def isWorkEv : Event → Bool
  | Event.startCiscoSession _ => true
  | Event.createOutputFilename _ => true
  | Event.writeOutputToFile _ => true
  | Event.endCiscoSession => true
  | _ => false

theorem pdw_shape (o : Nat → Outcome) (c : Nat) (en cmd : String) :
    (∃ e, per_device_work o c en cmd = ([Event.startCiscoSession en], c + 1, some e))
  ∨ (∃ e, per_device_work o c en cmd =
      ([Event.startCiscoSession en, Event.createOutputFilename cmd], c + 2, some e))
  ∨ (∃ e, per_device_work o c en cmd = (workEvsFull en cmd, c + 3, some e))
  ∨ per_device_work o c en cmd = (workEvsFull en cmd, c + 3, none) := by
  rcases h0 : outcomeToExc (o c) with _ | e0
  · rcases h1 : outcomeToExc (o (c + 1)) with _ | e1
    · rcases h2 : outcomeToExc (o (c + 2)) with _ | e2
      · right; right; right; simp [per_device_work, h0, h1, h2, workEvsFull]
      · right; right; left
        exact ⟨e2, by simp [per_device_work, h0, h1, h2, workEvsFull]⟩
    · right; left; exact ⟨e1, by simp [per_device_work, h0, h1]⟩
  · left; exact ⟨e0, by simp [per_device_work, h0]⟩

theorem pdw_ok (o : Nat → Outcome) (c : Nat) (en cmd : String)
    (h0 : o c = Outcome.ok) (h1 : o (c + 1) = Outcome.ok)
    (h2 : o (c + 2) = Outcome.ok) :
    per_device_work o c en cmd = (workEvsFull en cmd, c + 3, none) := by
  simp [per_device_work, h0, h1, h2, outcomeToExc, workEvsFull]

theorem pdw_work_only (o : Nat → Outcome) (c : Nat) (en cmd : String) :
    ∀ ev ∈ (per_device_work o c en cmd).1, isWorkEv ev = true := by
  rcases pdw_shape o c en cmd with ⟨e, h⟩ | ⟨e, h⟩ | ⟨e, h⟩ | h <;>
    simp [h, workEvsFull, isWorkEv, List.forall_mem_cons]

theorem directBody_shape (o : Nat → Outcome) (d : Device) (cmd : String) :
    (∃ e, directBody o d cmd = ([connectEv d], some e))
  ∨ (∃ e, directBody o d cmd =
      ([connectEv d, Event.startCiscoSession d.enable], some e))
  ∨ (∃ e, directBody o d cmd =
      ([connectEv d, Event.startCiscoSession d.enable,
        Event.createOutputFilename cmd], some e))
  ∨ (∃ e, directBody o d cmd = (connectEv d :: workEvsFull d.enable cmd, some e))
  ∨ (∃ x : Option Exc, directBody o d cmd =
      (connectEv d :: (workEvsFull d.enable cmd ++ [Event.disconnect]), x)) := by
  rcases h0 : outcomeToExc (o 0) with _ | e0
  · rcases pdw_shape o 1 d.enable cmd with ⟨e, h⟩ | ⟨e, h⟩ | ⟨e, h⟩ | h
    · right; left
      exact ⟨e, by simp [directBody, h0, h, workEvsFull, connectEv]⟩
    · right; right; left
      exact ⟨e, by simp [directBody, h0, h, workEvsFull, connectEv]⟩
    · right; right; right; left
      exact ⟨e, by simp [directBody, h0, h, workEvsFull, connectEv]⟩
    · rcases h4 : outcomeToExc (o (1 + 3)) with _ | e4
      · right; right; right; right
        exact ⟨none, by simp [directBody, h0, h, h4, workEvsFull, connectEv]⟩
      · right; right; right; right
        exact ⟨some e4, by simp [directBody, h0, h, h4, workEvsFull, connectEv]⟩
  · left; exact ⟨e0, by simp [directBody, h0, connectEv]⟩

theorem processDirect_ok (o : Nat → Outcome) (d : Device) (cmd : String)
    (evs : List Event) (h : directBody o d cmd = (evs, none)) :
    processDirect o d cmd = evs := by
  simp [processDirect, h]

theorem processDirect_fail (o : Nat → Outcome) (d : Device) (cmd : String)
    (evs : List Event) (e : Exc) (h : directBody o d cmd = (evs, some e)) :
    processDirect o d cmd = evs ++ [Event.logFailure (directLogLine d.hostname e)] := by
  simp [processDirect, h]

theorem afterJump_shape (o : Nat → Outcome) (c : Nat) (d : Device) (cmd : String)
    (b : Bool) :
    (∃ e, afterJump o c d cmd b = ([tunnelEv b d], some e))
  ∨ (∃ e, afterJump o c d cmd b =
      ([tunnelEv b d, Event.startCiscoSession d.enable], some e))
  ∨ (∃ e, afterJump o c d cmd b =
      ([tunnelEv b d, Event.startCiscoSession d.enable,
        Event.createOutputFilename cmd], some e))
  ∨ (∃ e, afterJump o c d cmd b = (tunnelEv b d :: workEvsFull d.enable cmd, some e))
  ∨ (∃ x : Option Exc, afterJump o c d cmd b =
      (tunnelEv b d :: (workEvsFull d.enable cmd ++ [Event.disconnectViaJump]), x)) := by
  rcases h0 : outcomeToExc (o c) with _ | e0
  · rcases pdw_shape o (c + 1) d.enable cmd with ⟨e, h⟩ | ⟨e, h⟩ | ⟨e, h⟩ | h
    · right; left
      exact ⟨e, by simp [afterJump, h0, h, workEvsFull, tunnelEv]⟩
    · right; right; left
      exact ⟨e, by simp [afterJump, h0, h, workEvsFull, tunnelEv]⟩
    · right; right; right; left
      exact ⟨e, by simp [afterJump, h0, h, workEvsFull, tunnelEv]⟩
    · rcases h4 : outcomeToExc (o (c + 1 + 3)) with _ | e4
      · right; right; right; right
        exact ⟨none, by simp [afterJump, h0, h, h4, workEvsFull, tunnelEv]⟩
      · right; right; right; right
        exact ⟨some e4, by simp [afterJump, h0, h, h4, workEvsFull, tunnelEv]⟩
  · left; exact ⟨e0, by simp [afterJump, h0, tunnelEv]⟩

theorem jumpTryBody_true (o : Nat → Outcome) (jb : JumpBox) (d : Device)
    (cmd : String) (b : Bool) :
    jumpTryBody o true jb d cmd b =
      ((afterJump o 0 d cmd b).1, true, (afterJump o 0 d cmd b).2) := by
  rcases h : afterJump o 0 d cmd b with ⟨evs, exc⟩
  simp [jumpTryBody, h]

theorem jumpTryBody_false_fail (o : Nat → Outcome) (jb : JumpBox) (d : Device)
    (cmd : String) (b : Bool) (e : Exc) (h : outcomeToExc (o 0) = some e) :
    jumpTryBody o false jb d cmd b =
      ([Event.connectSsh jb.host jb.user jb.pass jb.promptEnd], false, some e) := by
  simp [jumpTryBody, h]

theorem jumpTryBody_false_ok (o : Nat → Outcome) (jb : JumpBox) (d : Device)
    (cmd : String) (b : Bool) (h : outcomeToExc (o 0) = none) :
    jumpTryBody o false jb d cmd b =
      (Event.connectSsh jb.host jb.user jb.pass jb.promptEnd ::
        (afterJump o 1 d cmd b).1, true, (afterJump o 1 d cmd b).2) := by
  rcases hA : afterJump o 1 d cmd b with ⟨evs, exc⟩
  simp [jumpTryBody, h, hA]

theorem jumpDevice_ok (o : Nat → Outcome) (jc : Bool) (jb : JumpBox) (d : Device)
    (cmd : String) (b : Bool) (evs : List Event) (jc2 : Bool)
    (h : jumpTryBody o jc jb d cmd b = (evs, jc2, none)) :
    jumpDevice o jc jb d cmd b = (evs, jc2) := by
  simp [jumpDevice, h]

theorem jumpDevice_fail (o : Nat → Outcome) (jc : Bool) (jb : JumpBox) (d : Device)
    (cmd : String) (b : Bool) (evs : List Event) (jc2 : Bool) (e : Exc)
    (h : jumpTryBody o jc jb d cmd b = (evs, jc2, some e)) :
    jumpDevice o jc jb d cmd b =
      (evs ++ [Event.logFailure (jumpLogLine d.hostname e), Event.disconnect],
       false) := by
  simp [jumpDevice, h]

theorem runLoop_cons (oracle : Nat → Nat → Outcome) (u : Bool) (jb : JumpBox)
    (cmd : String) (d : Device) (ds : List Device) (i : Nat) (jc : Bool) :
    runLoop oracle u jb cmd (d :: ds) i jc =
      ((processDevice (oracle i) u jc jb d cmd).1 ++
        (runLoop oracle u jb cmd ds (i + 1)
          (processDevice (oracle i) u jc jb d cmd).2).1,
       (runLoop oracle u jb cmd ds (i + 1)
         (processDevice (oracle i) u jc jb d cmd).2).2) := by
  rcases hp : processDevice (oracle i) u jc jb d cmd with ⟨evs, jc2⟩
  rcases hr : runLoop oracle u jb cmd ds (i + 1) jc2 with ⟨rest, jcF⟩
  simp [runLoop, hp, hr]

/-- Every event a device segment can contain. -/
theorem processDevice_mem (o : Nat → Outcome) (u jc : Bool) (jb : JumpBox)
    (d : Device) (cmd : String) :
    ∀ ev ∈ (processDevice o u jc jb d cmd).1,
      isWorkEv ev = true ∨ ev = connectEv d
      ∨ ev = Event.connectSsh jb.host jb.user jb.pass jb.promptEnd
      ∨ ev = tunnelEv true d ∨ ev = tunnelEv false d
      ∨ isLog ev = true ∨ ev = Event.disconnect ∨ ev = Event.disconnectViaJump := by
  have hDir : ∀ ev ∈ processDirect o d cmd,
      isWorkEv ev = true ∨ ev = connectEv d
      ∨ ev = Event.connectSsh jb.host jb.user jb.pass jb.promptEnd
      ∨ ev = tunnelEv true d ∨ ev = tunnelEv false d
      ∨ isLog ev = true ∨ ev = Event.disconnect ∨ ev = Event.disconnectViaJump := by
    rcases directBody_shape o d cmd with ⟨e, h⟩ | ⟨e, h⟩ | ⟨e, h⟩ | ⟨e, h⟩ | ⟨x, h⟩
    · simp [processDirect_fail o d cmd _ e h, workEvsFull, isWorkEv, isLog,
        List.forall_mem_cons]
    · simp [processDirect_fail o d cmd _ e h, workEvsFull, isWorkEv, isLog,
        List.forall_mem_cons]
    · simp [processDirect_fail o d cmd _ e h, workEvsFull, isWorkEv, isLog,
        List.forall_mem_cons]
    · simp [processDirect_fail o d cmd _ e h, workEvsFull, isWorkEv, isLog,
        List.forall_mem_cons]
    · rcases x with _ | e
      · simp [processDirect_ok o d cmd _ h, workEvsFull, isWorkEv, isLog,
          List.forall_mem_cons]
      · simp [processDirect_fail o d cmd _ e h, workEvsFull, isWorkEv, isLog,
          List.forall_mem_cons]
  have hAfter : ∀ b : Bool, ∀ c, ∀ ev ∈ (afterJump o c d cmd b).1,
      isWorkEv ev = true
      ∨ ev = tunnelEv true d ∨ ev = tunnelEv false d
      ∨ ev = Event.disconnectViaJump := by
    intro b c
    have htb : tunnelEv b d = tunnelEv true d ∨ tunnelEv b d = tunnelEv false d := by
      cases b
      · right; rfl
      · left; rfl
    rcases afterJump_shape o c d cmd b with ⟨e, h⟩ | ⟨e, h⟩ | ⟨e, h⟩ | ⟨e, h⟩ | ⟨x, h⟩ <;>
      rcases htb with htb | htb <;>
        simp [h, htb, workEvsFull, isWorkEv, List.forall_mem_cons]
  have hJump : ∀ b : Bool, ∀ ev ∈ (jumpDevice o jc jb d cmd b).1,
      isWorkEv ev = true ∨ ev = connectEv d
      ∨ ev = Event.connectSsh jb.host jb.user jb.pass jb.promptEnd
      ∨ ev = tunnelEv true d ∨ ev = tunnelEv false d
      ∨ isLog ev = true ∨ ev = Event.disconnect ∨ ev = Event.disconnectViaJump := by
    intro b
    cases jc
    · rcases h0 : outcomeToExc (o 0) with _ | e0
      · have hB := jumpTryBody_false_ok o jb d cmd b h0
        rcases hx : (afterJump o 1 d cmd b).2 with _ | e
        · rw [jumpDevice_ok o false jb d cmd b _ _ (by rw [hB, hx])]
          intro ev hm
          simp only [List.mem_cons] at hm
          rcases hm with rfl | hm
          · simp
          · rcases hAfter b 1 ev hm with h | h | h | h <;> simp [h]
        · rw [jumpDevice_fail o false jb d cmd b _ _ e (by rw [hB, hx])]
          intro ev hm
          simp only [List.cons_append, List.mem_cons, List.mem_append,
            List.not_mem_nil, or_false] at hm
          rcases hm with rfl | hm | rfl | rfl
          · simp
          · rcases hAfter b 1 ev hm with h | h | h | h <;> simp [h]
          · simp [isLog]
          · simp
      · have hB := jumpTryBody_false_fail o jb d cmd b e0 h0
        rw [jumpDevice_fail o false jb d cmd b _ _ e0 hB]
        intro ev hm
        simp only [List.cons_append, List.nil_append, List.mem_cons,
          List.mem_append, List.not_mem_nil, or_false] at hm
        rcases hm with rfl | rfl | rfl
        · simp
        · simp [isLog]
        · simp
    · have hB := jumpTryBody_true o jb d cmd b
      rcases hx : (afterJump o 0 d cmd b).2 with _ | e
      · rw [jumpDevice_ok o true jb d cmd b _ _ (by rw [hB, hx])]
        intro ev hm
        rcases hAfter b 0 ev hm with h | h | h | h <;> simp [h]
      · rw [jumpDevice_fail o true jb d cmd b _ _ e (by rw [hB, hx])]
        intro ev hm
        simp only [List.mem_cons, List.mem_append, List.not_mem_nil,
          or_false] at hm
        rcases hm with hm | rfl | rfl
        · rcases hAfter b 0 ev hm with h | h | h | h <;> simp [h]
        · simp [isLog]
        · simp
  intro ev hm
  cases u
  · simp only [processDevice, Bool.false_eq_true, if_false] at hm
    exact hDir ev hm
  · by_cases hs : strContains (pyLower d.protocol) "ssh" = true
    · simp only [processDevice, if_true, hs] at hm
      exact hJump true ev hm
    · by_cases ht : pyLower d.protocol = "telnet"
      · simp [processDevice, hs, ht] at hm
        exact hJump false ev hm
      · simp [processDevice, hs, ht] at hm

theorem filter_eq_nil_of_mem_false {α : Type} (p : α → Bool) :
    ∀ l : List α, (∀ a ∈ l, p a = false) → l.filter p = [] := by
  intro l
  induction l with
  | nil => intro _; rfl
  | cons a rest ih =>
    intro h
    have ha := h a (List.mem_cons_self a rest)
    have hr := ih fun x hx => h x (List.mem_cons_of_mem a hx)
    simp [List.filter, ha, hr]

theorem connAfter_stays :
    ∀ evs : List Event, Event.disconnect ∉ evs → connAfter true evs = true := by
  intro evs
  induction evs with
  | nil => intro _; rfl
  | cons e rest ih =>
    intro h
    have h2 : Event.disconnect ∉ rest := fun hc => h (List.mem_cons_of_mem _ hc)
    cases e <;>
      first
        | exact absurd (List.mem_cons_self _ _) h
        | (simp only [connAfter]; exact ih h2)

/-- No event of a device segment writes to the settings store. -/
theorem segEv_not_settings (jb : JumpBox) (d : Device) (ev : Event)
    (h : isWorkEv ev = true ∨ ev = connectEv d
      ∨ ev = Event.connectSsh jb.host jb.user jb.pass jb.promptEnd
      ∨ ev = tunnelEv true d ∨ ev = tunnelEv false d
      ∨ isLog ev = true ∨ ev = Event.disconnect ∨ ev = Event.disconnectViaJump) :
    isSettingsWrite ev = false := by
  cases ev <;> simp_all [isWorkEv, isSettingsWrite, isLog, connectEv, tunnelEv]

/-- Every device-directed (connect or tunnel) event of a device segment names
that device's hostname. -/
theorem segEv_target (jb : JumpBox) (d : Device) (ev : Event)
    (h : isWorkEv ev = true ∨ ev = connectEv d
      ∨ ev = Event.connectSsh jb.host jb.user jb.pass jb.promptEnd
      ∨ ev = tunnelEv true d ∨ ev = tunnelEv false d
      ∨ isLog ev = true ∨ ev = Event.disconnect ∨ ev = Event.disconnectViaJump) :
    ∀ h2, targetHost ev = some h2 → h2 = d.hostname := by
  cases ev <;> simp_all [isWorkEv, targetHost, isLog, connectEv, tunnelEv]

/-- The device connect loop never writes to the settings store. -/
theorem runLoop_no_settings (oracle : Nat → Nat → Outcome) (u : Bool)
    (jb : JumpBox) (cmd : String) :
    ∀ (ds : List Device) (i : Nat) (jc : Bool),
      ∀ ev ∈ (runLoop oracle u jb cmd ds i jc).1, isSettingsWrite ev = false := by
  intro ds
  induction ds with
  | nil => intro i jc ev hm; simp [runLoop] at hm
  | cons d rest ih =>
    intro i jc ev hm
    rw [runLoop_cons] at hm
    rcases List.mem_append.mp hm with hm | hm
    · exact segEv_not_settings jb d ev (processDevice_mem _ _ _ _ _ _ ev hm)
    · exact ih _ _ ev hm

/-- A fully successful direct-path body: connect, the four work events, and
the tunnel teardown, the final component echoing the `disconnect` outcome. -/
theorem directBody_ok (o : Nat → Outcome) (d : Device) (cmd : String)
    (h0 : o 0 = Outcome.ok) (h1 : o 1 = Outcome.ok) (h2 : o 2 = Outcome.ok)
    (h3 : o 3 = Outcome.ok) :
    directBody o d cmd =
      (connectEv d :: (workEvsFull d.enable cmd ++ [Event.disconnect]),
       outcomeToExc (o 4)) := by
  have hp : per_device_work o 1 d.enable cmd = (workEvsFull d.enable cmd, 4, none) :=
    pdw_ok o 1 d.enable cmd h1 h2 h3
  have h0e : outcomeToExc (o 0) = none := by rw [h0]; rfl
  rcases h4 : outcomeToExc (o 4) with _ | e4 <;>
    simp [directBody, h0e, hp, h4, connectEv]

/-- A fully successful jump-path tail: tunnel, the four work events, and the
tunnel teardown, the final component echoing the `disconnect_via_jump`
outcome. -/
theorem afterJump_ok (o : Nat → Outcome) (c : Nat) (d : Device) (cmd : String)
    (b : Bool) (h0 : o c = Outcome.ok) (h1 : o (c + 1) = Outcome.ok)
    (h2 : o (c + 2) = Outcome.ok) (h3 : o (c + 3) = Outcome.ok) :
    afterJump o c d cmd b =
      (tunnelEv b d :: (workEvsFull d.enable cmd ++ [Event.disconnectViaJump]),
       outcomeToExc (o (c + 4))) := by
  have hp : per_device_work o (c + 1) d.enable cmd =
      (workEvsFull d.enable cmd, c + 4, none) := by
    have := pdw_ok o (c + 1) d.enable cmd h1 h2 h3
    simpa [Nat.add_assoc] using this
  have h0e : outcomeToExc (o c) = none := by rw [h0]; rfl
  rcases h4 : outcomeToExc (o (c + 4)) with _ | e4 <;>
    simp [afterJump, h0e, hp, h4, tunnelEv]

/-! ### Concrete fixtures for witnesses and counterexamples -/

/-- A sample SSH device. -/
def sampleDevice : Device := ⟨"r1", "ssh2", "u", "p", "en"⟩

/-- A sample device with a protocol the jump path does not handle. -/
def serialDevice : Device := ⟨"r3", "serial", "u", "p", "en"⟩

/-- A sample jump-box profile. -/
def sampleJB : JumpBox := ⟨"jh", "ju", "jp", "#"⟩

/-- A per-iteration oracle on which every call succeeds. -/
def allOk : Nat → Outcome := fun _ => Outcome.ok

/-- A baseline input: not connected, one direct-path device, all calls succeed. -/
def baseInput : Input :=
  { connected := false, deviceList := [sampleDevice], sendCmd := "show ver",
    useJumpbox := false, storedHost := "jh", storedUser := "ju",
    storedEnding := "#", ansHost := "ah", ansUser := "au", ansPass := "ap",
    ansEnding := "!", oracle := fun _ _ => Outcome.ok }

/-- An input whose tab is already connected. -/
def connectedInput : Input := { baseInput with connected := true }

/-- An input with an empty device list. -/
def emptyListInput : Input := { baseInput with deviceList := [] }

/-! ### The claims -/

/-- C6: if the script is launched on a session that is already connected, it
raises a `ScriptError` and aborts the whole run immediately: the error message
is surfaced and the trace of collaborator calls is empty, so the device list
is never loaded, no command is prompted for, and no connection is attempted. -/
theorem c6_connected_abort (inp : Input) (h : inp.connected = true) :
    (script_main inp).err =
      some "This script must be launched in a not-connected tab."
    ∧ (script_main inp).events = [] := by
  simp [script_main, h]

/-- Witness for C6 at a concrete already-connected input. -/
theorem c6_connected_abort_witness :
    (script_main connectedInput).err =
      some "This script must be launched in a not-connected tab."
    ∧ (script_main connectedInput).events = [] :=
  c6_connected_abort connectedInput rfl

/-- C5: with an empty device list or an empty command string, `script_main`
returns early with no error surfaced, and the trace contains no connection
attempt of any kind (direct connect, jump-box connect, or tunnel). -/
theorem c5_empty_input_no_connect (inp : Input) (hc : inp.connected = false)
    (h : inp.deviceList = [] ∨ inp.sendCmd = "") :
    (script_main inp).err = none
    ∧ (script_main inp).events.filter isConnAttempt = [] := by
  by_cases hd : inp.deviceList = []
  · simp [script_main, hc, hd, isConnAttempt]
  · rcases h with h | h
    · exact absurd h hd
    · simp [script_main, hc, hd, h, isConnAttempt]

/-- Witness for C5 at a concrete empty-device-list input. -/
theorem c5_empty_input_no_connect_witness :
    (script_main emptyListInput).err = none
    ∧ (script_main emptyListInput).events.filter isConnAttempt = [] :=
  c5_empty_input_no_connect emptyListInput rfl (Or.inl rfl)

/-- C9: when the jump box is in use, a device whose protocol string neither
contains "ssh" nor equals "telnet" (case-insensitively) is silently skipped:
the iteration emits no events at all (so no connection or tunnel attempt, no
output file, no failure-log line) and leaves the jump-connected flag
unchanged. -/
theorem c9_unsupported_protocol_skipped (o : Nat → Outcome) (jc : Bool)
    (jb : JumpBox) (d : Device) (cmd : String)
    (h1 : strContains (pyLower d.protocol) "ssh" = false)
    (h2 : pyLower d.protocol ≠ "telnet") :
    processDevice o true jc jb d cmd = ([], jc) := by
  simp [processDevice, h1, h2]

/-- Witness for C9 at a concrete serial-protocol device. -/
theorem c9_unsupported_protocol_skipped_witness :
    processDevice allOk true false sampleJB serialDevice "show ver" = ([], false) :=
  c9_unsupported_protocol_skipped allOk false sampleJB serialDevice "show ver"
    (by decide) (by decide)

/-- C3: in the jump path, on any connect or interaction error for a device the
error is logged to the failure log, the session is fully disconnected (the
`disconnect` call, which tears down the jump-box connection too), and the
jump-connected flag is cleared; consequently, processing any next jump-routed
device starts with a fresh connection attempt to the jump box. -/
theorem c3_jump_error_teardown (o : Nat → Outcome) (jc : Bool) (jb : JumpBox)
    (d : Device) (cmd : String) (b : Bool) (evs : List Event) (jc2 : Bool)
    (e : Exc) (h : jumpTryBody o jc jb d cmd b = (evs, jc2, some e)) :
    jumpDevice o jc jb d cmd b =
      (evs ++ [Event.logFailure (jumpLogLine d.hostname e), Event.disconnect],
       false)
    ∧ ∀ (o2 : Nat → Outcome) (d2 : Device),
        (strContains (pyLower d2.protocol) "ssh" = true
          ∨ pyLower d2.protocol = "telnet") →
        ∃ rest jc3, processDevice o2 true false jb d2 cmd =
          (Event.connectSsh jb.host jb.user jb.pass jb.promptEnd :: rest, jc3) := by
  constructor
  · exact jumpDevice_fail o jc jb d cmd b evs jc2 e h
  · intro o2 d2 hp
    have hstart : ∀ b2 : Bool, ∃ rest jc3, jumpDevice o2 false jb d2 cmd b2 =
        (Event.connectSsh jb.host jb.user jb.pass jb.promptEnd :: rest, jc3) := by
      intro b2
      rcases h0 : outcomeToExc (o2 0) with _ | e0
      · have hB := jumpTryBody_false_ok o2 jb d2 cmd b2 h0
        rcases hx : (afterJump o2 1 d2 cmd b2).2 with _ | e2
        · exact ⟨(afterJump o2 1 d2 cmd b2).1, true,
            jumpDevice_ok o2 false jb d2 cmd b2 _ _ (by rw [hB, hx])⟩
        · refine ⟨(afterJump o2 1 d2 cmd b2).1 ++
            [Event.logFailure (jumpLogLine d2.hostname e2), Event.disconnect],
            false, ?_⟩
          rw [jumpDevice_fail o2 false jb d2 cmd b2 _ _ e2 (by rw [hB, hx])]
          simp
      · refine ⟨[Event.logFailure (jumpLogLine d2.hostname e0), Event.disconnect],
          false, ?_⟩
        rw [jumpDevice_fail o2 false jb d2 cmd b2 _ _ e0
          (jumpTryBody_false_fail o2 jb d2 cmd b2 e0 h0)]
        simp
    by_cases hs : strContains (pyLower d2.protocol) "ssh" = true
    · rcases hstart true with ⟨rest, jc3, hh⟩
      exact ⟨rest, jc3, by simp [processDevice, hs, hh]⟩
    · rcases hp with hp | hp
      · exact absurd hp hs
      · rcases hstart false with ⟨rest, jc3, hh⟩
        refine ⟨rest, jc3, ?_⟩
        show (if (true : Bool) = true then
            if strContains (pyLower d2.protocol) "ssh" = true then
              jumpDevice o2 false jb d2 cmd true
            else if pyLower d2.protocol = "telnet" then
              jumpDevice o2 false jb d2 cmd false
            else ([], false)
          else (processDirect o2 d2 cmd, false)) = _
        rw [if_pos rfl, if_neg hs, if_pos hp]
        exact hh

/-- A per-iteration oracle where the tunnel to the device fails. -/
def tunnelFailOracle : Nat → Outcome :=
  fun k => if k = 1 then Outcome.connectErr "x" else Outcome.ok

/-- Witness for C3: with the tunnel failing, the segment logs the failure,
fully disconnects and clears the flag. -/
theorem c3_jump_error_teardown_witness :
    jumpDevice tunnelFailOracle false sampleJB sampleDevice "show ver" true =
      ([Event.connectSsh "jh" "ju" "jp" "#", Event.sshViaJump "r1" "u" "p",
        Event.logFailure "Connect to r1 failed: x\n", Event.disconnect],
       false) := by
  have h := c3_jump_error_teardown tunnelFailOracle false sampleJB sampleDevice
    "show ver" true
    [Event.connectSsh "jh" "ju" "jp" "#", Event.sshViaJump "r1" "u" "p"]
    true (Exc.connectError "x") (by decide)
  rw [h.1]
  decide

/-- C10: in the direct path, when `per_device_work` raises an interaction
error after a successful connect, the handler appends the failure-log line
but never calls `disconnect`, so the trace contains no disconnect event and
the session is still connected when the loop advances. -/
theorem c10_direct_interaction_keeps_session (o : Nat → Outcome) (d : Device)
    (cmd : String) (m : String) (evW : List Event) (c2 : Nat)
    (h0 : o 0 = Outcome.ok)
    (hw : per_device_work o 1 d.enable cmd =
      (evW, c2, some (Exc.interactionError m))) :
    processDirect o d cmd =
      (connectEv d :: evW) ++
        [Event.logFailure ("Failure on " ++ d.hostname ++ ": " ++ pyStrip m ++ "\n")]
    ∧ Event.disconnect ∉ processDirect o d cmd
    ∧ connAfter false (processDirect o d cmd) = true := by
  have h0e : outcomeToExc (o 0) = none := by rw [h0]; rfl
  have hbody : directBody o d cmd =
      (connectEv d :: evW, some (Exc.interactionError m)) := by
    simp [directBody, h0e, hw, connectEv]
  have hpd := processDirect_fail o d cmd _ _ hbody
  have hline : directLogLine d.hostname (Exc.interactionError m) =
      "Failure on " ++ d.hostname ++ ": " ++ pyStrip m ++ "\n" := rfl
  have hndW : Event.disconnect ∉ evW := by
    intro hm
    have hmm : Event.disconnect ∈ (per_device_work o 1 d.enable cmd).1 := by
      rw [hw]; exact hm
    have := pdw_work_only o 1 d.enable cmd Event.disconnect hmm
    simp [isWorkEv] at this
  refine ⟨by rw [hpd, hline], ?_, ?_⟩
  · rw [hpd]
    intro hmem
    rcases List.mem_append.mp hmem with hm | hm
    · rcases List.mem_cons.mp hm with hm | hm
      · simp [connectEv] at hm
      · exact hndW hm
    · simp at hm
  · rw [hpd]
    have hstep : connAfter false ((connectEv d :: evW) ++
        [Event.logFailure (directLogLine d.hostname (Exc.interactionError m))]) =
        connAfter true (evW ++
          [Event.logFailure (directLogLine d.hostname (Exc.interactionError m))]) := by
      simp [connectEv, connAfter]
    rw [hstep]
    apply connAfter_stays
    intro hmem
    rcases List.mem_append.mp hmem with hm | hm
    · exact hndW hm
    · simp at hm

/-- A per-iteration oracle where `start_cisco_session` raises an interaction
error. -/
def startFailOracle : Nat → Outcome :=
  fun k => if k = 1 then Outcome.interactErr " boom " else Outcome.ok

/-- Witness for C10 at a concrete input: connect succeeds, the Cisco session
start fails, and the trace has one failure line and no disconnect. -/
theorem c10_direct_interaction_keeps_session_witness :
    processDirect startFailOracle sampleDevice "show ver" =
      [Event.connect "r1" "u" "p" "ssh2", Event.startCiscoSession "en",
       Event.logFailure "Failure on r1: boom\n"]
    ∧ Event.disconnect ∉ processDirect startFailOracle sampleDevice "show ver"
    ∧ connAfter false (processDirect startFailOracle sampleDevice "show ver") = true := by
  have h := c10_direct_interaction_keeps_session startFailOracle sampleDevice
    "show ver" " boom " [Event.startCiscoSession "en"] 2 (by decide) (by decide)
  refine ⟨?_, h.2.1, h.2.2⟩
  rw [h.1]
  decide

theorem tunnelEv_not_write (b : Bool) (d : Device) : isWrite (tunnelEv b d) = false := by
  cases b <;> rfl

theorem tunnelEv_not_log (b : Bool) (d : Device) : isLog (tunnelEv b d) = false := by
  cases b <;> rfl

/-- In the direct path, when connect and all of `per_device_work` succeed, the
segment writes exactly one output file and runs the full work sequence. -/
theorem processDirect_writes (o : Nat → Outcome) (d : Device) (cmd : String)
    (h0 : o 0 = Outcome.ok) (h1 : o 1 = Outcome.ok) (h2 : o 2 = Outcome.ok)
    (h3 : o 3 = Outcome.ok) :
    (processDirect o d cmd).filter isWrite = [Event.writeOutputToFile cmd]
    ∧ Event.startCiscoSession d.enable ∈ processDirect o d cmd
    ∧ Event.createOutputFilename cmd ∈ processDirect o d cmd
    ∧ Event.endCiscoSession ∈ processDirect o d cmd := by
  have hb := directBody_ok o d cmd h0 h1 h2 h3
  rcases hx : outcomeToExc (o 4) with _ | e4
  · rw [hx] at hb
    rw [processDirect_ok o d cmd _ hb]
    refine ⟨?_, ?_, ?_, ?_⟩ <;> simp [workEvsFull, connectEv, isWrite]
  · rw [hx] at hb
    rw [processDirect_fail o d cmd _ e4 hb]
    refine ⟨?_, ?_, ?_, ?_⟩ <;> simp [workEvsFull, connectEv, isWrite, isLog]

/-- In the jump path, when the jump-box connect (if needed), the tunnel and
all of `per_device_work` succeed, the segment writes exactly one output file
and runs the full work sequence. -/
theorem jumpDevice_writes (o : Nat → Outcome) (jc : Bool) (jb : JumpBox)
    (d : Device) (cmd : String) (b : Bool)
    (hok : ∀ k, k ≤ (if jc then 3 else 4) → o k = Outcome.ok) :
    (jumpDevice o jc jb d cmd b).1.filter isWrite = [Event.writeOutputToFile cmd]
    ∧ Event.startCiscoSession d.enable ∈ (jumpDevice o jc jb d cmd b).1
    ∧ Event.createOutputFilename cmd ∈ (jumpDevice o jc jb d cmd b).1
    ∧ Event.endCiscoSession ∈ (jumpDevice o jc jb d cmd b).1 := by
  cases jc
  · have h0e : outcomeToExc (o 0) = none := by rw [hok 0 (by decide)]; rfl
    have haj := afterJump_ok o 1 d cmd b (hok 1 (by decide)) (hok 2 (by decide))
      (hok 3 (by decide)) (hok 4 (by decide))
    have hB := jumpTryBody_false_ok o jb d cmd b h0e
    rw [haj] at hB
    rcases hx : outcomeToExc (o (1 + 4)) with _ | e4
    · rw [hx] at hB
      rw [jumpDevice_ok o false jb d cmd b _ _ hB]
      cases b <;> refine ⟨?_, ?_, ?_, ?_⟩ <;>
        simp [workEvsFull, isWrite, tunnelEv]
    · rw [hx] at hB
      rw [jumpDevice_fail o false jb d cmd b _ _ e4 hB]
      cases b <;> refine ⟨?_, ?_, ?_, ?_⟩ <;>
        simp [workEvsFull, isWrite, isLog, tunnelEv]
  · have haj := afterJump_ok o 0 d cmd b (hok 0 (by decide)) (hok 1 (by decide))
      (hok 2 (by decide)) (hok 3 (by decide))
    have hB := jumpTryBody_true o jb d cmd b
    rw [haj] at hB
    rcases hx : outcomeToExc (o (0 + 4)) with _ | e4
    · rw [hx] at hB
      rw [jumpDevice_ok o true jb d cmd b _ _ hB]
      cases b <;> refine ⟨?_, ?_, ?_, ?_⟩ <;>
        simp [workEvsFull, isWrite, tunnelEv]
    · rw [hx] at hB
      rw [jumpDevice_fail o true jb d cmd b _ _ e4 hB]
      cases b <;> refine ⟨?_, ?_, ?_, ?_⟩ <;>
        simp [workEvsFull, isWrite, isLog, tunnelEv]

/-- C1 (amended): for every device that is attempted (direct path, or jump
path with a supported protocol) and whose connection and per-device work all
succeed, exactly one output file is created containing that device's command
output: the segment starts a vendor CLI session, derives the filename from
the command text, writes the command output, and ends the vendor session.
(The original claim asked this of every device whose connection succeeds; a
post-connect interaction failure defeats that, see the counterexample.) -/
theorem c1_success_single_output (o : Nat → Outcome) (u jc : Bool)
    (jb : JumpBox) (d : Device) (cmd : String)
    (hatt : u = false ∨ strContains (pyLower d.protocol) "ssh" = true
      ∨ pyLower d.protocol = "telnet")
    (hok : ∀ k, k ≤ (if u then (if jc then 3 else 4) else 3) → o k = Outcome.ok) :
    (processDevice o u jc jb d cmd).1.filter isWrite = [Event.writeOutputToFile cmd]
    ∧ Event.startCiscoSession d.enable ∈ (processDevice o u jc jb d cmd).1
    ∧ Event.createOutputFilename cmd ∈ (processDevice o u jc jb d cmd).1
    ∧ Event.endCiscoSession ∈ (processDevice o u jc jb d cmd).1 := by
  cases u
  · have hpd : processDevice o false jc jb d cmd = (processDirect o d cmd, jc) := by
      simp [processDevice]
    rw [hpd]
    exact processDirect_writes o d cmd (hok 0 (by simp)) (hok 1 (by simp))
      (hok 2 (by simp)) (hok 3 (by simp))
  · by_cases hs : strContains (pyLower d.protocol) "ssh" = true
    · have hpd : processDevice o true jc jb d cmd = jumpDevice o jc jb d cmd true := by
        simp [processDevice, hs]
      rw [hpd]
      exact jumpDevice_writes o jc jb d cmd true hok
    · rcases hatt with hatt | hatt | hatt
      · exact absurd hatt (by simp)
      · exact absurd hatt hs
      · have hpd : processDevice o true jc jb d cmd =
            jumpDevice o jc jb d cmd false := by
          show (if (true : Bool) = true then
              if strContains (pyLower d.protocol) "ssh" = true then
                jumpDevice o jc jb d cmd true
              else if pyLower d.protocol = "telnet" then
                jumpDevice o jc jb d cmd false
              else ([], jc)
            else (processDirect o d cmd, jc)) = _
          rw [if_pos rfl, if_neg hs, if_pos hatt]
        rw [hpd]
        exact jumpDevice_writes o jc jb d cmd false hok

/-- Witness for C1 (amended) at a concrete all-succeeding direct-path input. -/
theorem c1_success_single_output_witness :
    (processDevice allOk false false sampleJB sampleDevice "show ver").1.filter isWrite
      = [Event.writeOutputToFile "show ver"]
    ∧ Event.startCiscoSession "en"
        ∈ (processDevice allOk false false sampleJB sampleDevice "show ver").1
    ∧ Event.createOutputFilename "show ver"
        ∈ (processDevice allOk false false sampleJB sampleDevice "show ver").1
    ∧ Event.endCiscoSession
        ∈ (processDevice allOk false false sampleJB sampleDevice "show ver").1 :=
  c1_success_single_output allOk false false sampleJB sampleDevice "show ver"
    (Or.inl rfl) (fun _ _ => rfl)

/-- Input for the C1 counterexample: direct path, connect succeeds, then
`start_cisco_session` raises an interaction error. -/
def c1CexInput : Input :=
  { baseInput with
      oracle := fun _ k => if k = 1 then Outcome.interactErr "boom" else Outcome.ok }

/-- C1 counterexample: a device whose connection succeeds (the connect call's
outcome is `ok` and its connect event is in the trace) but for which no output
file is created, because the post-connect interaction fails. -/
theorem c1_counterexample :
    c1CexInput.oracle 0 0 = Outcome.ok
    ∧ Event.connect "r1" "u" "p" "ssh2" ∈ (script_main c1CexInput).events
    ∧ (script_main c1CexInput).events.filter isWrite = [] := by
  decide

/-- Inversion: a jump-path `try` body that raises no exception ends with the
flag set and consists of the optional jump-box connect, the tunnel, the four
work events and the tunnel-only teardown. -/
theorem jumpTryBody_none_inv (o : Nat → Outcome) (jc : Bool) (jb : JumpBox)
    (d : Device) (cmd : String) (b : Bool) (evs : List Event) (jc2 : Bool)
    (h : jumpTryBody o jc jb d cmd b = (evs, jc2, none)) :
    jc2 = true
    ∧ evs = (if jc then ([] : List Event)
        else [Event.connectSsh jb.host jb.user jb.pass jb.promptEnd]) ++
      (tunnelEv b d :: (workEvsFull d.enable cmd ++ [Event.disconnectViaJump])) := by
  cases jc
  · rcases h0 : outcomeToExc (o 0) with _ | e0
    · rw [jumpTryBody_false_ok o jb d cmd b h0] at h
      rcases afterJump_shape o 1 d cmd b with
        ⟨e, ha⟩ | ⟨e, ha⟩ | ⟨e, ha⟩ | ⟨e, ha⟩ | ⟨x, ha⟩
      · rw [ha] at h; simp at h
      · rw [ha] at h; simp at h
      · rw [ha] at h; simp at h
      · rw [ha] at h; simp at h
      · rcases x with _ | e
        · rw [ha] at h
          simp only [Prod.mk.injEq] at h
          obtain ⟨h1, h2, _⟩ := h
          exact ⟨h2.symm, by rw [← h1]; simp⟩
        · rw [ha] at h; simp at h
    · rw [jumpTryBody_false_fail o jb d cmd b e0 h0] at h
      simp at h
  · rw [jumpTryBody_true o jb d cmd b] at h
    rcases afterJump_shape o 0 d cmd b with
      ⟨e, ha⟩ | ⟨e, ha⟩ | ⟨e, ha⟩ | ⟨e, ha⟩ | ⟨x, ha⟩
    · rw [ha] at h; simp at h
    · rw [ha] at h; simp at h
    · rw [ha] at h; simp at h
    · rw [ha] at h; simp at h
    · rcases x with _ | e
      · rw [ha] at h
        simp only [Prod.mk.injEq] at h
        obtain ⟨h1, h2, _⟩ := h
        exact ⟨h2.symm, by rw [← h1]; simp⟩
      · rw [ha] at h; simp at h

/-- The jump-path tail never attempts a jump-box connection itself. -/
theorem afterJump_no_jumpconnect (o : Nat → Outcome) (c : Nat) (d : Device)
    (cmd : String) (b : Bool) :
    ∀ ev ∈ (afterJump o c d cmd b).1, isJumpConnect ev = false := by
  rcases afterJump_shape o c d cmd b with
    ⟨e, h⟩ | ⟨e, h⟩ | ⟨e, h⟩ | ⟨e, h⟩ | ⟨x, h⟩ <;>
    cases b <;>
      simp [h, workEvsFull, tunnelEv, isJumpConnect, List.forall_mem_cons]

/-- C4: the jump-box session is established at most once per contiguous run of
jump-routed devices that all succeed: (i) on a successful device only the
tunnel is disconnected (`disconnect_via_jump`, never a full `disconnect`) and
the jump-connected flag stays set; (ii) whenever the flag is already set the
segment contains no jump-box connection attempt at all; (iii) after the loop,
if still connected to the jump box, the final action disconnects it. -/
theorem c4_jump_reuse (o : Nat → Outcome) (jb : JumpBox) (d : Device)
    (cmd : String) (b : Bool) :
    (∀ jc evs jc2, jumpTryBody o jc jb d cmd b = (evs, jc2, none) →
        jumpDevice o jc jb d cmd b = (evs, true)
        ∧ Event.disconnect ∉ evs ∧ Event.disconnectViaJump ∈ evs)
    ∧ ((jumpDevice o true jb d cmd b).1.filter isJumpConnect = [])
    ∧ (∀ inp : Input, inp.connected = false → inp.deviceList ≠ [] →
        inp.sendCmd ≠ "" →
        (runLoop inp.oracle inp.useJumpbox (jumpSection inp).2 inp.sendCmd
          inp.deviceList 0 false).2 = true →
        (script_main inp).events.getLast? = some Event.disconnect) := by
  refine ⟨?_, ?_, ?_⟩
  · intro jc evs jc2 h
    obtain ⟨hj2, hevs⟩ := jumpTryBody_none_inv o jc jb d cmd b evs jc2 h
    subst hj2
    refine ⟨jumpDevice_ok o jc jb d cmd b evs true h, ?_, ?_⟩
    · subst hevs
      cases jc <;> cases b <;> simp [workEvsFull, tunnelEv]
    · subst hevs
      cases jc <;> cases b <;> simp [workEvsFull, tunnelEv]
  · apply filter_eq_nil_of_mem_false
    intro ev hm
    have hB := jumpTryBody_true o jb d cmd b
    rcases hx : (afterJump o 0 d cmd b).2 with _ | e
    · rw [jumpDevice_ok o true jb d cmd b _ _ (by rw [hB, hx])] at hm
      exact afterJump_no_jumpconnect o 0 d cmd b ev hm
    · rw [jumpDevice_fail o true jb d cmd b _ _ e (by rw [hB, hx])] at hm
      rcases List.mem_append.mp hm with hm | hm
      · exact afterJump_no_jumpconnect o 0 d cmd b ev hm
      · rcases List.mem_cons.mp hm with rfl | hm
        · rfl
        · rcases List.mem_cons.mp hm with rfl | hm
          · rfl
          · simp at hm
  · intro inp hc hd hcmd hflag
    rcases hjs : jumpSection inp with ⟨evJ, jb2⟩
    rcases hrl : runLoop inp.oracle inp.useJumpbox jb2 inp.sendCmd
        inp.deviceList 0 false with ⟨evL, jcF⟩
    have hflag2 : jcF = true := by
      rw [hjs, hrl] at hflag
      exact hflag
    subst hflag2
    have hsm : (script_main inp).events =
        [Event.importList,
          Event.prompt "Enter the command to capture on each device."] ++
          evJ ++ evL ++ [Event.disconnect] := by
      simp [script_main, hc, hd, hcmd, hjs, hrl]
    rw [hsm]
    rw [List.getLast?_append_of_ne_nil _ (by simp)]
    rfl

/-- An all-succeeding input routed through the jump box. -/
def jumpAllOkInput : Input := { baseInput with useJumpbox := true }

/-- Witness for C4 at concrete inputs: a successful jump-routed device with
the flag already set tears down only the tunnel and attempts no jump-box
connection, and an all-succeeding jump run ends by disconnecting the jump
box. -/
theorem c4_jump_reuse_witness :
    jumpDevice allOk true sampleJB sampleDevice "show ver" true =
      ([Event.sshViaJump "r1" "u" "p", Event.startCiscoSession "en",
        Event.createOutputFilename "show ver", Event.writeOutputToFile "show ver",
        Event.endCiscoSession, Event.disconnectViaJump], true)
    ∧ (jumpDevice allOk true sampleJB sampleDevice "show ver" true).1.filter
        isJumpConnect = []
    ∧ (script_main jumpAllOkInput).events.getLast? = some Event.disconnect := by
  have h := c4_jump_reuse allOk sampleJB sampleDevice "show ver" true
  refine ⟨?_, h.2.1, ?_⟩
  · exact (h.1 true
      [Event.sshViaJump "r1" "u" "p", Event.startCiscoSession "en",
        Event.createOutputFilename "show ver", Event.writeOutputToFile "show ver",
        Event.endCiscoSession, Event.disconnectViaJump] true (by decide)).1
  · exact h.2.2 jumpAllOkInput rfl (by decide) (by decide) (by decide)

/-- A dummy device used as the default of positional lookups. -/
def dummyDevice : Device := ⟨"", "", "", "", ""⟩

/-- C8: devices are processed strictly in list (CSV) order, one at a time:
the loop trace is exactly the concatenation of one complete per-device block
per device, in the order the devices appear, and every device-directed
connection or tunnel event inside block `j` names the hostname of device `j`.
The embedding is sequential by construction, mirroring the single-threaded
`for` loop of the source. -/
theorem c8_sequential_order (oracle : Nat → Nat → Outcome) (u : Bool)
    (jb : JumpBox) (cmd : String) :
    ∀ (ds : List Device) (i : Nat) (jc : Bool),
      (runLoop oracle u jb cmd ds i jc).1 =
        (loopSegs oracle u jb cmd ds i jc).flatten
      ∧ (loopSegs oracle u jb cmd ds i jc).length = ds.length
      ∧ ∀ j, j < ds.length →
          ∀ ev ∈ (loopSegs oracle u jb cmd ds i jc).getD j [],
            ∀ h2, targetHost ev = some h2 →
              h2 = (ds.getD j dummyDevice).hostname := by
  intro ds
  induction ds with
  | nil =>
    intro i jc
    refine ⟨rfl, rfl, ?_⟩
    intro j hj
    simp at hj
  | cons d rest ih =>
    intro i jc
    rcases hp : processDevice (oracle i) u jc jb d cmd with ⟨evs, jc2⟩
    obtain ⟨ih1, ih2, ih3⟩ := ih (i + 1) jc2
    have hseg : loopSegs oracle u jb cmd (d :: rest) i jc =
        evs :: loopSegs oracle u jb cmd rest (i + 1) jc2 := by
      simp [loopSegs, hp]
    refine ⟨?_, ?_, ?_⟩
    · rw [runLoop_cons, hp, hseg]
      simp [ih1]
    · rw [hseg]
      simp [ih2]
    · intro j hj
      cases j with
      | zero =>
        rw [hseg]
        simp only [List.getD_cons_zero]
        intro ev hm h2 ht
        exact segEv_target jb d ev
          (processDevice_mem (oracle i) u jc jb d cmd ev (by rw [hp]; exact hm))
          h2 ht
      | succ j =>
        rw [hseg]
        simp only [List.getD_cons_succ]
        intro ev hm h2 ht
        exact ih3 j (by simpa using hj) ev hm h2 ht

/-- Witness for C8 at a concrete two-device run. -/
theorem c8_sequential_order_witness :
    (runLoop (fun _ _ => Outcome.ok) false sampleJB "show ver"
        [sampleDevice, serialDevice] 0 false).1 =
      (loopSegs (fun _ _ => Outcome.ok) false sampleJB "show ver"
        [sampleDevice, serialDevice] 0 false).flatten
    ∧ (loopSegs (fun _ _ => Outcome.ok) false sampleJB "show ver"
        [sampleDevice, serialDevice] 0 false).length = 2
    ∧ "r1" = ([sampleDevice, serialDevice].getD 0 dummyDevice).hostname := by
  have h := c8_sequential_order (fun _ _ => Outcome.ok) false sampleJB "show ver"
    [sampleDevice, serialDevice] 0 false
  refine ⟨h.1, by simpa using h.2.1, ?_⟩
  exact h.2.2 0 (by decide) (Event.connect "r1" "u" "p" "ssh2") (by decide)
    "r1" (by decide)

/-- Exactly which settings writes the jump-box section emits: one per missing
stored value, with the prompted answer as the new value. -/
theorem jumpSection_update_mem (inp : Input) (hj : inp.useJumpbox = true)
    (sct key v : String) :
    (Event.settingsUpdate sct key v ∈ (jumpSection inp).1) ↔
      (sct = "Global" ∧
        ((key = "jumpbox_host" ∧ v = inp.ansHost ∧ inp.storedHost = "")
        ∨ (key = "jumpbox_user" ∧ v = inp.ansUser ∧ inp.storedUser = "")
        ∨ (key = "jumpbox_prompt_end" ∧ v = inp.ansEnding ∧ inp.storedEnding = ""))) := by
  by_cases hH : inp.storedHost = "" <;> by_cases hU : inp.storedUser = "" <;>
    by_cases hE : inp.storedEnding = "" <;>
      simp [jumpSection, hj, hH, hU, hE] <;> tauto

/-- The jump-box section always prompts for the jump-box password. -/
theorem jumpSection_password_prompt (inp : Input) (hj : inp.useJumpbox = true) :
    ∃ u2, Event.prompt ("JUMPBOX: Enter the PASSWORD for " ++ u2)
      ∈ (jumpSection inp).1 := by
  refine ⟨if inp.storedUser = "" then inp.ansUser else inp.storedUser, ?_⟩
  by_cases hH : inp.storedHost = "" <;> by_cases hU : inp.storedUser = "" <;>
    by_cases hE : inp.storedEnding = "" <;>
      simp [jumpSection, hj, hH, hU, hE]

/-- Every event of the jump-box section appears in the full trace. -/
theorem script_main_mem_of_jumpSection (inp : Input) (hc : inp.connected = false)
    (hd : inp.deviceList ≠ []) (hcmd : inp.sendCmd ≠ "") (ev : Event)
    (h : ev ∈ (jumpSection inp).1) : ev ∈ (script_main inp).events := by
  rcases hjs : jumpSection inp with ⟨evJ, jb2⟩
  rcases hrl : runLoop inp.oracle inp.useJumpbox jb2 inp.sendCmd
      inp.deviceList 0 false with ⟨evL, jcF⟩
  have hsm : (script_main inp).events =
      [Event.importList,
        Event.prompt "Enter the command to capture on each device."] ++
        evJ ++ evL ++ (if jcF then [Event.disconnect] else []) := by
    simp [script_main, hc, hd, hcmd, hjs, hrl]
  rw [hsm]
  rw [hjs] at h
  exact List.mem_append.mpr (Or.inl (List.mem_append.mpr
    (Or.inl (List.mem_append.mpr (Or.inr h)))))

/-- A settings write is in the full trace exactly when the jump-box section
emits it: nothing else in the run touches the settings store. -/
theorem script_main_update_mem (inp : Input) (hc : inp.connected = false)
    (hd : inp.deviceList ≠ []) (hcmd : inp.sendCmd ≠ "") (sct key v : String) :
    (Event.settingsUpdate sct key v ∈ (script_main inp).events) ↔
      Event.settingsUpdate sct key v ∈ (jumpSection inp).1 := by
  constructor
  · rcases hjs : jumpSection inp with ⟨evJ, jb2⟩
    rcases hrl : runLoop inp.oracle inp.useJumpbox jb2 inp.sendCmd
        inp.deviceList 0 false with ⟨evL, jcF⟩
    have hsm : (script_main inp).events =
        [Event.importList,
          Event.prompt "Enter the command to capture on each device."] ++
          evJ ++ evL ++ (if jcF then [Event.disconnect] else []) := by
      simp [script_main, hc, hd, hcmd, hjs, hrl]
    rw [hsm]
    intro hmem
    rcases List.mem_append.mp hmem with hmem | hmem
    · rcases List.mem_append.mp hmem with hmem | hmem
      · rcases List.mem_append.mp hmem with hmem | hmem
        · simp at hmem
        · exact hmem
      · exfalso
        have hin : Event.settingsUpdate sct key v ∈
            (runLoop inp.oracle inp.useJumpbox jb2 inp.sendCmd
              inp.deviceList 0 false).1 := by
          rw [hrl]; exact hmem
        have := runLoop_no_settings inp.oracle inp.useJumpbox jb2 inp.sendCmd
          inp.deviceList 0 false _ hin
        simp [isSettingsWrite] at this
    · cases jcF <;> simp at hmem
  · exact script_main_mem_of_jumpSection inp hc hd hcmd _

/-- C7: when the jump box is in use (and the run proceeds past the early
returns), each of the three persisted settings is written back exactly when
its stored value is missing (with the prompted answer as the value written);
the jump-box password is prompted for on every run; and no other key of the
settings store is ever written, in particular no password is persisted. -/
theorem c7_jumpbox_settings (inp : Input) (hc : inp.connected = false)
    (hd : inp.deviceList ≠ []) (hcmd : inp.sendCmd ≠ "")
    (hj : inp.useJumpbox = true) :
    ((∃ v, Event.settingsUpdate "Global" "jumpbox_host" v
        ∈ (script_main inp).events) ↔ inp.storedHost = "")
    ∧ ((∃ v, Event.settingsUpdate "Global" "jumpbox_user" v
        ∈ (script_main inp).events) ↔ inp.storedUser = "")
    ∧ ((∃ v, Event.settingsUpdate "Global" "jumpbox_prompt_end" v
        ∈ (script_main inp).events) ↔ inp.storedEnding = "")
    ∧ (∃ u2, Event.prompt ("JUMPBOX: Enter the PASSWORD for " ++ u2)
        ∈ (script_main inp).events)
    ∧ (∀ sct key v, Event.settingsUpdate sct key v ∈ (script_main inp).events →
        sct = "Global" ∧ (key = "jumpbox_host" ∨ key = "jumpbox_user"
          ∨ key = "jumpbox_prompt_end")) := by
  refine ⟨?_, ?_, ?_, ?_, ?_⟩
  · constructor
    · rintro ⟨v, hv⟩
      have h2 := (jumpSection_update_mem inp hj "Global" "jumpbox_host" v).mp
        ((script_main_update_mem inp hc hd hcmd _ _ _).mp hv)
      rcases h2.2 with ⟨_, _, h3⟩ | ⟨hk, _⟩ | ⟨hk, _⟩
      · exact h3
      · simp at hk
      · simp at hk
    · intro hH
      exact ⟨inp.ansHost, (script_main_update_mem inp hc hd hcmd _ _ _).mpr
        ((jumpSection_update_mem inp hj "Global" "jumpbox_host" inp.ansHost).mpr
          ⟨rfl, Or.inl ⟨rfl, rfl, hH⟩⟩)⟩
  · constructor
    · rintro ⟨v, hv⟩
      have h2 := (jumpSection_update_mem inp hj "Global" "jumpbox_user" v).mp
        ((script_main_update_mem inp hc hd hcmd _ _ _).mp hv)
      rcases h2.2 with ⟨hk, _⟩ | ⟨_, _, h3⟩ | ⟨hk, _⟩
      · simp at hk
      · exact h3
      · simp at hk
    · intro hU
      exact ⟨inp.ansUser, (script_main_update_mem inp hc hd hcmd _ _ _).mpr
        ((jumpSection_update_mem inp hj "Global" "jumpbox_user" inp.ansUser).mpr
          ⟨rfl, Or.inr (Or.inl ⟨rfl, rfl, hU⟩)⟩)⟩
  · constructor
    · rintro ⟨v, hv⟩
      have h2 := (jumpSection_update_mem inp hj "Global" "jumpbox_prompt_end" v).mp
        ((script_main_update_mem inp hc hd hcmd _ _ _).mp hv)
      rcases h2.2 with ⟨hk, _⟩ | ⟨hk, _⟩ | ⟨_, _, h3⟩
      · simp at hk
      · simp at hk
      · exact h3
    · intro hE
      exact ⟨inp.ansEnding, (script_main_update_mem inp hc hd hcmd _ _ _).mpr
        ((jumpSection_update_mem inp hj "Global" "jumpbox_prompt_end"
            inp.ansEnding).mpr ⟨rfl, Or.inr (Or.inr ⟨rfl, rfl, hE⟩)⟩)⟩
  · obtain ⟨u2, hu⟩ := jumpSection_password_prompt inp hj
    exact ⟨u2, script_main_mem_of_jumpSection inp hc hd hcmd _ hu⟩
  · intro sct key v hv
    have h2 := (jumpSection_update_mem inp hj sct key v).mp
      ((script_main_update_mem inp hc hd hcmd _ _ _).mp hv)
    refine ⟨h2.1, ?_⟩
    rcases h2.2 with ⟨hk, _⟩ | ⟨hk, _⟩ | ⟨hk, _⟩
    · exact Or.inl hk
    · exact Or.inr (Or.inl hk)
    · exact Or.inr (Or.inr hk)

/-- An input taking the jump path with only the username setting missing. -/
def jumpMissingUserInput : Input :=
  { jumpAllOkInput with storedUser := "" }

/-- Witness for C7 at a concrete input where only the username is missing:
the username is written back, the host is not, and the password prompt
occurs. -/
theorem c7_jumpbox_settings_witness :
    ((∃ v, Event.settingsUpdate "Global" "jumpbox_user" v
        ∈ (script_main jumpMissingUserInput).events) ↔
      jumpMissingUserInput.storedUser = "")
    ∧ ((∃ v, Event.settingsUpdate "Global" "jumpbox_host" v
        ∈ (script_main jumpMissingUserInput).events) ↔
      jumpMissingUserInput.storedHost = "")
    ∧ (∃ u2, Event.prompt ("JUMPBOX: Enter the PASSWORD for " ++ u2)
        ∈ (script_main jumpMissingUserInput).events) := by
  have h := c7_jumpbox_settings jumpMissingUserInput rfl (by decide) (by decide) rfl
  exact ⟨h.2.1, h.1, h.2.2.2.1⟩

/-- When a direct-path iteration logs at all, it logs exactly one line, in one
of the two source formats naming the hostname and a stripped message, and it
wrote at most the one output file. -/
theorem processDirect_fail_shape (o : Nat → Outcome) (d : Device) (cmd : String)
    (hfail : (processDirect o d cmd).filter isLog ≠ []) :
    (∃ l, (processDirect o d cmd).filter isLog = [Event.logFailure l]
      ∧ (∃ m, l = "Connect to " ++ d.hostname ++ " failed: " ++ pyStrip m ++ "\n"
            ∨ l = "Failure on " ++ d.hostname ++ ": " ++ pyStrip m ++ "\n"))
    ∧ ((processDirect o d cmd).filter isWrite = []
        ∨ (processDirect o d cmd).filter isWrite = [Event.writeOutputToFile cmd]) := by
  have hExc : ∀ e : Exc, ∃ m,
      directLogLine d.hostname e =
          "Connect to " ++ d.hostname ++ " failed: " ++ pyStrip m ++ "\n"
        ∨ directLogLine d.hostname e =
          "Failure on " ++ d.hostname ++ ": " ++ pyStrip m ++ "\n" := by
    intro e
    cases e with
    | connectError m => exact ⟨m, Or.inl rfl⟩
    | interactionError m => exact ⟨m, Or.inr rfl⟩
  rcases directBody_shape o d cmd with ⟨e, h⟩ | ⟨e, h⟩ | ⟨e, h⟩ | ⟨e, h⟩ | ⟨x, h⟩
  · rw [processDirect_fail o d cmd _ e h]
    refine ⟨⟨directLogLine d.hostname e, ?_, hExc e⟩, ?_⟩
    · simp [connectEv, isLog]
    · left
      simp [connectEv, isWrite, isLog]
  · rw [processDirect_fail o d cmd _ e h]
    refine ⟨⟨directLogLine d.hostname e, ?_, hExc e⟩, ?_⟩
    · simp [connectEv, isLog]
    · left
      simp [connectEv, isWrite, isLog]
  · rw [processDirect_fail o d cmd _ e h]
    refine ⟨⟨directLogLine d.hostname e, ?_, hExc e⟩, ?_⟩
    · simp [connectEv, isLog]
    · left
      simp [connectEv, isWrite, isLog]
  · rw [processDirect_fail o d cmd _ e h]
    refine ⟨⟨directLogLine d.hostname e, ?_, hExc e⟩, ?_⟩
    · simp [connectEv, workEvsFull, isLog]
    · right
      simp [connectEv, workEvsFull, isWrite, isLog]
  · rcases x with _ | e
    · rw [processDirect_ok o d cmd _ h] at hfail
      exfalso
      apply hfail
      simp [connectEv, workEvsFull, isLog]
    · rw [processDirect_fail o d cmd _ e h]
      refine ⟨⟨directLogLine d.hostname e, ?_, hExc e⟩, ?_⟩
      · simp [connectEv, workEvsFull, isLog]
      · right
        simp [connectEv, workEvsFull, isWrite, isLog]

/-- When a jump-path iteration logs at all, it logs exactly one line, in the
single source format naming the hostname and a stripped message, and it
wrote at most the one output file. -/
theorem jumpDevice_fail_shape (o : Nat → Outcome) (jc : Bool) (jb : JumpBox)
    (d : Device) (cmd : String) (b : Bool)
    (hfail : (jumpDevice o jc jb d cmd b).1.filter isLog ≠ []) :
    (∃ l, (jumpDevice o jc jb d cmd b).1.filter isLog = [Event.logFailure l]
      ∧ (∃ m, l = "Connect to " ++ d.hostname ++ " failed: " ++ pyStrip m ++ "\n"
            ∨ l = "Failure on " ++ d.hostname ++ ": " ++ pyStrip m ++ "\n"))
    ∧ ((jumpDevice o jc jb d cmd b).1.filter isWrite = []
        ∨ (jumpDevice o jc jb d cmd b).1.filter isWrite
            = [Event.writeOutputToFile cmd]) := by
  have hExc : ∀ e : Exc, ∃ m,
      jumpLogLine d.hostname e =
          "Connect to " ++ d.hostname ++ " failed: " ++ pyStrip m ++ "\n"
        ∨ jumpLogLine d.hostname e =
          "Failure on " ++ d.hostname ++ ": " ++ pyStrip m ++ "\n" :=
    fun e => ⟨excMsg e, Or.inl rfl⟩
  cases jc
  · rcases h0 : outcomeToExc (o 0) with _ | e0
    · have hB := jumpTryBody_false_ok o jb d cmd b h0
      rcases afterJump_shape o 1 d cmd b with
        ⟨e, ha⟩ | ⟨e, ha⟩ | ⟨e, ha⟩ | ⟨e, ha⟩ | ⟨x, ha⟩
      · rw [jumpDevice_fail o false jb d cmd b _ _ e (by rw [hB, ha])]
        refine ⟨⟨jumpLogLine d.hostname e, ?_, hExc e⟩, ?_⟩
        · cases b <;> simp [isLog, tunnelEv]
        · left; cases b <;> simp [isWrite, isLog, tunnelEv]
      · rw [jumpDevice_fail o false jb d cmd b _ _ e (by rw [hB, ha])]
        refine ⟨⟨jumpLogLine d.hostname e, ?_, hExc e⟩, ?_⟩
        · cases b <;> simp [isLog, tunnelEv]
        · left; cases b <;> simp [isWrite, isLog, tunnelEv]
      · rw [jumpDevice_fail o false jb d cmd b _ _ e (by rw [hB, ha])]
        refine ⟨⟨jumpLogLine d.hostname e, ?_, hExc e⟩, ?_⟩
        · cases b <;> simp [isLog, tunnelEv]
        · left; cases b <;> simp [isWrite, isLog, tunnelEv]
      · rw [jumpDevice_fail o false jb d cmd b _ _ e (by rw [hB, ha])]
        refine ⟨⟨jumpLogLine d.hostname e, ?_, hExc e⟩, ?_⟩
        · cases b <;> simp [workEvsFull, isLog, tunnelEv]
        · right; cases b <;> simp [workEvsFull, isWrite, isLog, tunnelEv]
      · rcases x with _ | e
        · rw [jumpDevice_ok o false jb d cmd b _ _ (by rw [hB, ha])] at hfail
          exfalso
          apply hfail
          cases b <;> simp [workEvsFull, isLog, tunnelEv]
        · rw [jumpDevice_fail o false jb d cmd b _ _ e (by rw [hB, ha])]
          refine ⟨⟨jumpLogLine d.hostname e, ?_, hExc e⟩, ?_⟩
          · cases b <;> simp [workEvsFull, isLog, tunnelEv]
          · right; cases b <;> simp [workEvsFull, isWrite, isLog, tunnelEv]
    · rw [jumpDevice_fail o false jb d cmd b _ _ e0
        (jumpTryBody_false_fail o jb d cmd b e0 h0)]
      refine ⟨⟨jumpLogLine d.hostname e0, ?_, hExc e0⟩, ?_⟩
      · simp [isLog]
      · left; simp [isWrite, isLog]
  · have hB := jumpTryBody_true o jb d cmd b
    rcases afterJump_shape o 0 d cmd b with
      ⟨e, ha⟩ | ⟨e, ha⟩ | ⟨e, ha⟩ | ⟨e, ha⟩ | ⟨x, ha⟩
    · rw [jumpDevice_fail o true jb d cmd b _ _ e (by rw [hB, ha])]
      refine ⟨⟨jumpLogLine d.hostname e, ?_, hExc e⟩, ?_⟩
      · cases b <;> simp [isLog, tunnelEv]
      · left; cases b <;> simp [isWrite, isLog, tunnelEv]
    · rw [jumpDevice_fail o true jb d cmd b _ _ e (by rw [hB, ha])]
      refine ⟨⟨jumpLogLine d.hostname e, ?_, hExc e⟩, ?_⟩
      · cases b <;> simp [isLog, tunnelEv]
      · left; cases b <;> simp [isWrite, isLog, tunnelEv]
    · rw [jumpDevice_fail o true jb d cmd b _ _ e (by rw [hB, ha])]
      refine ⟨⟨jumpLogLine d.hostname e, ?_, hExc e⟩, ?_⟩
      · cases b <;> simp [isLog, tunnelEv]
      · left; cases b <;> simp [isWrite, isLog, tunnelEv]
    · rw [jumpDevice_fail o true jb d cmd b _ _ e (by rw [hB, ha])]
      refine ⟨⟨jumpLogLine d.hostname e, ?_, hExc e⟩, ?_⟩
      · cases b <;> simp [workEvsFull, isLog, tunnelEv]
      · right; cases b <;> simp [workEvsFull, isWrite, isLog, tunnelEv]
    · rcases x with _ | e
      · rw [jumpDevice_ok o true jb d cmd b _ _ (by rw [hB, ha])] at hfail
        exfalso
        apply hfail
        cases b <;> simp [workEvsFull, isLog, tunnelEv]
      · rw [jumpDevice_fail o true jb d cmd b _ _ e (by rw [hB, ha])]
        refine ⟨⟨jumpLogLine d.hostname e, ?_, hExc e⟩, ?_⟩
        · cases b <;> simp [workEvsFull, isLog, tunnelEv]
        · right; cases b <;> simp [workEvsFull, isWrite, isLog, tunnelEv]

/-- C2 (amended): for every device whose connection or post-connect
interaction fails, exactly one line is appended to the shared failure log;
that line names the device's hostname and carries a stripped error message in
one of the two source formats; processing continues with the next device in
the list; and no output file exists for that device unless the command output
had already been successfully written before the failure struck, in which
case exactly that one file exists.  (The original claim's unconditional "no
output file is created" fails when the error strikes after the output was
written, see the counterexample.) -/
theorem c2_failure_logged (o : Nat → Outcome) (u jc : Bool) (jb : JumpBox)
    (d : Device) (cmd : String)
    (hfail : (processDevice o u jc jb d cmd).1.filter isLog ≠ []) :
    (∃ l, (processDevice o u jc jb d cmd).1.filter isLog = [Event.logFailure l]
      ∧ (∃ m, l = "Connect to " ++ d.hostname ++ " failed: " ++ pyStrip m ++ "\n"
            ∨ l = "Failure on " ++ d.hostname ++ ": " ++ pyStrip m ++ "\n"))
    ∧ ((processDevice o u jc jb d cmd).1.filter isWrite = []
        ∨ (processDevice o u jc jb d cmd).1.filter isWrite
            = [Event.writeOutputToFile cmd])
    ∧ (∀ (orc : Nat → Nat → Outcome) (i : Nat) (ds : List Device), orc i = o →
        runLoop orc u jb cmd (d :: ds) i jc =
          ((processDevice o u jc jb d cmd).1 ++
            (runLoop orc u jb cmd ds (i + 1)
              (processDevice o u jc jb d cmd).2).1,
           (runLoop orc u jb cmd ds (i + 1)
             (processDevice o u jc jb d cmd).2).2)) := by
  cases u
  · have hpd : processDevice o false jc jb d cmd = (processDirect o d cmd, jc) := by
      simp [processDevice]
    rw [hpd] at hfail ⊢
    obtain ⟨hA, hB2⟩ := processDirect_fail_shape o d cmd hfail
    refine ⟨hA, hB2, ?_⟩
    intro orc i ds ho
    rw [runLoop_cons, ho, hpd]
  · by_cases hs : strContains (pyLower d.protocol) "ssh" = true
    · have hpd : processDevice o true jc jb d cmd =
          jumpDevice o jc jb d cmd true := by
        simp [processDevice, hs]
      rw [hpd] at hfail ⊢
      obtain ⟨hA, hB2⟩ := jumpDevice_fail_shape o jc jb d cmd true hfail
      refine ⟨hA, hB2, ?_⟩
      intro orc i ds ho
      rw [runLoop_cons, ho, hpd]
    · by_cases ht : pyLower d.protocol = "telnet"
      · have hpd : processDevice o true jc jb d cmd =
            jumpDevice o jc jb d cmd false := by
          show (if (true : Bool) = true then
              if strContains (pyLower d.protocol) "ssh" = true then
                jumpDevice o jc jb d cmd true
              else if pyLower d.protocol = "telnet" then
                jumpDevice o jc jb d cmd false
              else ([], jc)
            else (processDirect o d cmd, jc)) = _
          rw [if_pos rfl, if_neg hs, if_pos ht]
        rw [hpd] at hfail ⊢
        obtain ⟨hA, hB2⟩ := jumpDevice_fail_shape o jc jb d cmd false hfail
        refine ⟨hA, hB2, ?_⟩
        intro orc i ds ho
        rw [runLoop_cons, ho, hpd]
      · exfalso
        have hs2 : strContains (pyLower d.protocol) "ssh" = false := by
          simpa using hs
        have hpd : processDevice o true jc jb d cmd = ([], jc) := by
          simp [processDevice, hs2, ht]
        rw [hpd] at hfail
        simp at hfail

/-- A per-iteration oracle where the initial connect fails. -/
def connectFailOracle : Nat → Outcome :=
  fun k => if k = 0 then Outcome.connectErr " refused " else Outcome.ok

/-- Witness for C2 (amended): a direct-path device whose connect fails logs
exactly one line in the connect format, creates no output file, and the loop
continues past it. -/
theorem c2_failure_logged_witness :
    (∃ l, (processDevice connectFailOracle false false sampleJB sampleDevice
        "show ver").1.filter isLog = [Event.logFailure l]
      ∧ (∃ m, l = "Connect to " ++ sampleDevice.hostname ++ " failed: " ++
            pyStrip m ++ "\n"
            ∨ l = "Failure on " ++ sampleDevice.hostname ++ ": " ++
              pyStrip m ++ "\n"))
    ∧ ((processDevice connectFailOracle false false sampleJB sampleDevice
        "show ver").1.filter isWrite = []
        ∨ (processDevice connectFailOracle false false sampleJB sampleDevice
            "show ver").1.filter isWrite = [Event.writeOutputToFile "show ver"])
    ∧ runLoop (fun _ => connectFailOracle) false sampleJB "show ver"
        [sampleDevice] 0 false =
      ((processDevice connectFailOracle false false sampleJB sampleDevice
          "show ver").1 ++
        (runLoop (fun _ => connectFailOracle) false sampleJB "show ver" [] 1
          (processDevice connectFailOracle false false sampleJB sampleDevice
            "show ver").2).1,
       (runLoop (fun _ => connectFailOracle) false sampleJB "show ver" [] 1
         (processDevice connectFailOracle false false sampleJB sampleDevice
           "show ver").2).2) := by
  have h := c2_failure_logged connectFailOracle false false sampleJB
    sampleDevice "show ver" (by decide)
  exact ⟨h.1, h.2.1, h.2.2 (fun _ => connectFailOracle) 0 [] rfl⟩

/-- Input for the C2 counterexample: direct path, everything succeeds up to
and including the output write, then `end_cisco_session` raises an
interaction error. -/
def c2CexInput : Input :=
  { baseInput with
      oracle := fun _ k => if k = 3 then Outcome.interactErr "boom" else Outcome.ok }

/-- C2 counterexample: a device whose post-connect interaction fails (one
failure-log line is appended) and for which an output file nevertheless
exists, because the failure struck only after `write_output_to_file`
succeeded. -/
theorem c2_counterexample :
    (script_main c2CexInput).events.filter isLog =
      [Event.logFailure "Failure on r1: boom\n"]
    ∧ (script_main c2CexInput).events.filter isWrite =
      [Event.writeOutputToFile "show ver"] := by
  decide
